import Mathlib

/-!
Shallow embedding of the AI risk assessment engine
(`flexible_risk_assessor.py`, `config_service.py`) and proofs about its
scoring, classification, recommendation and configuration-reload logic.

Python dicts (ordered, string-keyed) are modelled as association lists
`List (String × α)` with first-match lookup; Python floats appearing in
configs and scores are modelled as `ℚ`; `round` is Python's
round-half-to-even; exceptions are modelled with `Option`.
-/

namespace AIRisk

/-- Python's built-in `round` to an integer: round half to even. -/
def pyRound (q : ℚ) : ℤ :=
  if q - q.floor < 1/2 then q.floor
  else if 1/2 < q - q.floor then q.floor + 1
  else if q.floor % 2 = 0 then q.floor else q.floor + 1

/-- One question's entry in `dimensions.<dim>.questions` of
`scoring_flexible.yaml`: its per-answer scoring table and optional weight
(`.get('weight', 1.0)` defaults it to 1). -/
structure QuestionConfig where
  scoring : List (String × ℚ)
  weight : Option ℚ
deriving DecidableEq

/-- One dimension's entry in `scoring_flexible.yaml`: the aggregation
strategy (`.get('aggregation', 'max')` defaults it to `"max"`) and the
question table. -/
structure DimensionConfig where
  aggregation : Option String
  questions : List (String × QuestionConfig)
deriving DecidableEq

/-- The empty dict used by `self.dimension_config.get(dimension, {})`. -/
def emptyDimensionConfig : DimensionConfig := ⟨none, []⟩

/-- One entry of `risk_thresholds`: inclusive `min`/`max` bounds and the
level string returned on a match. -/
structure Threshold where
  min : ℤ
  max : ℤ
  level : String
deriving DecidableEq

/-- The parsed `scoring_flexible.yaml` as `FlexibleAIRiskAssessor` uses it:
`dimensions`, `risk_thresholds` (dict keyed by level name), and the
`default_scoring` fallback scales. -/
structure ScoringConfig where
  dimensions : List (String × DimensionConfig)
  risk_thresholds : List (String × Threshold)
  default_scoring : List (String × List (String × ℚ))
deriving DecidableEq

/-- `question_id.endswith('_reasoning')`: the key-naming test the code uses
to recognise free-text/reasoning entries. -/
def endsWithReasoning (s : String) : Bool := s.endsWith "_reasoning"

/-- The question table of a dimension,
`self.dimension_config.get(dimension, {}).get('questions', {})`. -/
def questionsOf (cfg : ScoringConfig) (dimension : String) :
    List (String × QuestionConfig) :=
  ((cfg.dimensions.lookup dimension).getD emptyDimensionConfig).questions

/-- `FlexibleAIRiskAssessor.calculate_question_score`: the question's own
scoring table first, then the first `default_scoring` scale containing the
answer, else 0. -/
def calculateQuestionScore (cfg : ScoringConfig)
    (dimension qid answer : String) : ℚ :=
  let qcfg := ((questionsOf cfg dimension).lookup qid).getD ⟨[], none⟩
  match qcfg.scoring.lookup answer with
  | some v => v
  | none =>
    match cfg.default_scoring.findSome? (fun p => p.2.lookup answer) with
    | some v => v
    | none => 0

/-- `questions_config.get(question_id, {}).get('weight', 1.0)`. -/
def weightOf (questions : List (String × QuestionConfig)) (qid : String) : ℚ :=
  match questions.lookup qid with
  | some qc => qc.weight.getD 1
  | none => 1

/-- `max` over a nonempty list of scores (0 is never reached: callers guard
the empty case, mirroring the code's guards around `max(...)`). -/
def listMax : List ℚ → ℚ
  | [] => 0
  | x :: xs => xs.foldl max x

/-- `min` over a nonempty list of scores (callers guard the empty case,
mirroring the `if not question_scores` guard before `min(...)`). -/
def listMin : List ℚ → ℚ
  | [] => 0
  | x :: xs => xs.foldl min x

/-- `statistics.mean`; callers guard nonemptiness as the code does. -/
def mean (xs : List ℚ) : ℚ := xs.sum / xs.length

/-- `FlexibleAIRiskAssessor.aggregate_dimension_scores`: dispatch on the
dimension's aggregation strategy. `average`, `weighted_average` and `max`
drop `_reasoning`-suffixed keys; `sum` and `min` do not; an unknown
strategy falls back to the mean of all values. -/
def aggregateDimensionScores (cfg : ScoringConfig) (dimension : String)
    (qs : List (String × ℚ)) : ℚ :=
  if qs.isEmpty then 0
  else
    match ((cfg.dimensions.lookup dimension).getD
        emptyDimensionConfig).aggregation.getD "max" with
    | "sum" => (qs.map Prod.snd).sum
    | "average" =>
      if ((qs.filter (fun p => !endsWithReasoning p.1)).map Prod.snd).isEmpty
      then 0
      else mean ((qs.filter (fun p => !endsWithReasoning p.1)).map Prod.snd)
    | "weighted_average" =>
      if 0 < ((qs.filter (fun p => !endsWithReasoning p.1)).map
          (fun p => weightOf (questionsOf cfg dimension) p.1)).sum then
        ((qs.filter (fun p => !endsWithReasoning p.1)).map
          (fun p => p.2 * weightOf (questionsOf cfg dimension) p.1)).sum /
        ((qs.filter (fun p => !endsWithReasoning p.1)).map
          (fun p => weightOf (questionsOf cfg dimension) p.1)).sum
      else 0
    | "max" =>
      if ((qs.filter (fun p => !endsWithReasoning p.1)).map Prod.snd).isEmpty
      then 0
      else listMax ((qs.filter (fun p => !endsWithReasoning p.1)).map Prod.snd)
    | "min" => listMin (qs.map Prod.snd)
    | _ => mean (qs.map Prod.snd)

/-- `FlexibleAIRiskAssessor.is_question_in_dimension`: `_reasoning` keys
never belong; otherwise explicit configuration, falling back to the
prefix heuristic. -/
def isQuestionInDimension (cfg : ScoringConfig) (qid dimension : String) :
    Bool :=
  if endsWithReasoning qid then false
  else if ((questionsOf cfg dimension).lookup qid).isSome then true
  else qid.startsWith dimension

/-- `config['min'] <= rounded_score <= config['max']`. -/
def containsScore (t : Threshold) (r : ℤ) : Bool := t.min ≤ r && r ≤ t.max

/-- The `for level, config in self.risk_thresholds.items()` scan:
level of the first threshold whose inclusive bounds contain `r`. -/
def firstMatchLevel (ths : List (String × Threshold)) (r : ℤ) :
    Option String :=
  match ths with
  | [] => none
  | (_, t) :: rest =>
    if containsScore t r then some t.level else firstMatchLevel rest r

/-- `min(config['min'] for config in self.risk_thresholds.values())`;
`none` models the `ValueError` Python raises on an empty dict. -/
def minThreshold (ths : List (String × Threshold)) : Option ℤ :=
  match ths.map (fun p => p.2.min) with
  | [] => none
  | x :: xs => some (xs.foldl min x)

/-- `FlexibleAIRiskAssessor.determine_risk_level`: round the score, take
the first inclusive threshold match, else clamp to the literal `"low"`
below the smallest configured min, else `"unknown"`. `none` models the
exception on an empty threshold table. -/
def determineRiskLevel (ths : List (String × Threshold)) (score : ℚ) :
    Option String :=
  match firstMatchLevel ths (pyRound score) with
  | some level => some level
  | none =>
    match minThreshold ths with
    | none => none
    | some m => if pyRound score < m then some "low" else some "unknown"

/-- The fixed dimension list iterated by
`calculate_flexible_risk_score`. -/
def dimensionNames : List String :=
  ["autonomy", "oversight", "impact", "orchestration", "data_sensitivity"]

/-- The per-dimension question-score dict built by
`calculate_flexible_risk_score`: every submitted `(key, value)` with
`is_question_in_dimension(key, dimension)` true, scored. -/
def scoresForDimension (cfg : ScoringConfig)
    (data : List (String × String)) (dimension : String) :
    List (String × ℚ) :=
  (data.filter (fun kv => isQuestionInDimension cfg kv.1 dimension)).map
    (fun kv => (kv.1, calculateQuestionScore cfg dimension kv.1 kv.2))

/-- Dimensions actually processed: the fixed five, skipping any not
present in the scoring config (`if dimension not in ... : continue`). -/
def configuredDimensions (cfg : ScoringConfig) : List String :=
  dimensionNames.filter (fun d => (cfg.dimensions.lookup d).isSome)

/-- One dimension's aggregated score: 0 when the dimension collected no
question scores (the `else` branch of `calculate_flexible_risk_score`),
otherwise `aggregate_dimension_scores`. -/
def dimensionScoreValue (cfg : ScoringConfig)
    (data : List (String × String)) (d : String) : ℚ :=
  if (scoresForDimension cfg data d).isEmpty then 0
  else aggregateDimensionScores cfg d (scoresForDimension cfg data d)

/-- The `dimension_scores` dict: aggregated score per configured
dimension. -/
def dimensionScoreEntries (cfg : ScoringConfig)
    (data : List (String × String)) : List (String × ℚ) :=
  (configuredDimensions cfg).map (fun d => (d, dimensionScoreValue cfg data d))

/-- The `question_scores` dict: raw per-question scores per configured
dimension. -/
def questionScoreEntries (cfg : ScoringConfig)
    (data : List (String × String)) :
    List (String × List (String × ℚ)) :=
  (configuredDimensions cfg).map (fun d => (d, scoresForDimension cfg data d))

/-- Result tuple of `calculate_flexible_risk_score`. -/
structure FlexResult where
  total : ℚ
  riskLevel : Option String
  dimensionScores : List (String × ℚ)
  questionScores : List (String × List (String × ℚ))
deriving DecidableEq

/-- `FlexibleAIRiskAssessor.calculate_flexible_risk_score`. -/
def calculateFlexibleRiskScore (cfg : ScoringConfig)
    (data : List (String × String)) : FlexResult :=
  let ds := dimensionScoreEntries cfg data
  let total := (ds.map Prod.snd).sum
  { total := total
    riskLevel := determineRiskLevel cfg.risk_thresholds total
    dimensionScores := ds
    questionScores := questionScoreEntries cfg data }

/-- One entry of the `conditional` list in `recommendations.yaml`:
`condition` maps answer fields to their allowed values, `recommendation`
is the text appended on a match (`.get('recommendation', '')` defaults it
to the empty string). -/
structure CondRule where
  condition : List (String × List String)
  recommendation : String
deriving DecidableEq

/-- The `for field, required_values in condition.items()` check: every
condition field's submitted answer is a member of its allowed values;
a missing field (`assessment_data.get(field)` is `None`) fails. -/
def ruleMatches (data : List (String × String)) (r : CondRule) : Bool :=
  r.condition.all (fun fc =>
    match data.lookup fc.1 with
    | some v => fc.2.contains v
    | none => false)

/-- `FlexibleAIRiskAssessor.get_conditional_recommendations`: append, in
rule order, the recommendation of every rule whose condition is met and
whose recommendation is nonempty (`if condition_met and recommendation`). -/
def getConditionalRecommendations (rules : List CondRule)
    (data : List (String × String)) : List String :=
  (rules.filter
    (fun r => ruleMatches data r && !(r.recommendation == ""))).map
    (fun r => r.recommendation)

/-- The parsed `recommendations.yaml`. -/
structure RecommendationsConfig where
  by_risk_level : List (String × List String)
  conditional : List CondRule
deriving DecidableEq

/-- `FlexibleAIRiskAssessor.get_recommendations`. -/
def getRecommendations (rc : RecommendationsConfig) (riskLevel : String) :
    List String :=
  (rc.by_risk_level.lookup riskLevel).getD []

/-- The fields of the `RiskAssessment` dataclass that the evaluation
computes (identity fields like workflow name are pass-through). -/
structure Assessment where
  risk_score : ℚ
  risk_level : String
  recommendations : List String
  conditional_recommendations : List String
  dimension_scores : List (String × ℚ)
  question_scores : List (String × List (String × ℚ))
deriving DecidableEq

/-- `FlexibleAIRiskAssessor.assess_risk`: the score, level and
recommendation computations run, but the final `RiskAssessment(...)`
constructor call omits the dataclass's required `responses` field
(declared without a default at `flexible_risk_assessor.py:27`, never
passed at lines 275–289), so every call raises `TypeError` before
returning. `none` models the raised exception on both paths: the
`determine_risk_level` exception propagating on an empty threshold
table, and otherwise the constructor's `TypeError`. -/
def assessRisk (cfg : ScoringConfig) (rc : RecommendationsConfig)
    (data : List (String × String)) : Option Assessment :=
  match (calculateFlexibleRiskScore cfg data).riskLevel with
  | none => none
  | some _ => none

/-! ### Configuration reload (`config_service.py`) -/

/-- What the filesystem holds at a config path: the file is absent, it
cannot be read or parsed (open/`yaml.safe_load` raises), or it parses to
a value (`yaml.safe_load(f) or {}` turns an empty document into the
empty config, so an empty parse is `parsed emptyVal`). -/
inductive FileContent (α : Type) where
  | absent : FileContent α
  | unreadable : FileContent α
  | parsed : α → FileContent α
deriving DecidableEq

/-- `ConfigService._safe_load_yaml`: a missing file and any read/parse
exception both yield the empty config. -/
def safeLoadYaml (emptyVal : α) : FileContent α → α
  | .absent => emptyVal
  | .unreadable => emptyVal
  | .parsed v => v

/-- A config file on disk: its content and its modification time. -/
structure DiskFile (α : Type) where
  content : FileContent α
  mtime : ℚ
deriving DecidableEq

/-- `ConfigService._file_mtime`: 0.0 when the file does not exist. -/
def fileMtime (f : DiskFile α) : ℚ :=
  match f.content with
  | .absent => 0
  | _ => f.mtime

/-- The cached state `ConfigService` keeps for one config file: the
served config and the recorded mtime (`self._mtimes.get(key, -1.0)` when
absent). -/
structure ConfigSlot (α : Type) where
  cached : α
  mtime : Option ℚ
deriving DecidableEq

/-- `ConfigService._has_changed`. -/
def hasChanged (slot : ConfigSlot α) (f : DiskFile α) : Bool :=
  decide (fileMtime f ≠ slot.mtime.getD (-1))

/-- One file's step of `ConfigService._load_all`: when forced or changed,
replace the cached config with whatever `_safe_load_yaml` returns and
record the new mtime; otherwise keep the slot. -/
def loadSlot (emptyVal : α) (force : Bool) (slot : ConfigSlot α)
    (f : DiskFile α) : ConfigSlot α :=
  if force || hasChanged slot f then
    { cached := safeLoadYaml emptyVal f.content, mtime := some (fileMtime f) }
  else slot

/-- The empty dict a failed load leaves in place of the scoring config. -/
def emptyScoringConfig : ScoringConfig := ⟨[], [], []⟩

/-! ### Concrete configuration from the spec's scenarios -/

/-- The spec's threshold scenario: low=4–7, medium=8–11, high=12–14,
critical=15–16. -/
def exThresholds : List (String × Threshold) :=
  [("low", ⟨4, 7, "low"⟩), ("medium", ⟨8, 11, "medium"⟩),
   ("high", ⟨12, 14, "high"⟩), ("critical", ⟨15, 16, "critical"⟩)]

/-- The spec's weighted-average scenario: question `autonomy` (weight 1;
tool=1, assistant=2, agent=3, autonomous=4) and `autonomy_scope`
(weight 0.5; narrow=1, broad=4). -/
def exAutonomyQuestions : List (String × QuestionConfig) :=
  [("autonomy",
    ⟨[("tool", 1), ("assistant", 2), ("agent", 3), ("autonomous", 4)],
     some 1⟩),
   ("autonomy_scope", ⟨[("narrow", 1), ("broad", 4)], some (mkRat 1 2)⟩)]

/-- A scoring config with one `weighted_average` dimension and the
example thresholds. -/
def exScoringConfig : ScoringConfig :=
  { dimensions := [("autonomy", ⟨some "weighted_average", exAutonomyQuestions⟩)]
    risk_thresholds := exThresholds
    default_scoring := [] }

/-- The spec's conditional-rule scenario:
`{impact: [external], oversight: [minimal]}`. -/
def exImpactRule : CondRule :=
  ⟨[("impact", ["external"]), ("oversight", ["minimal"])],
   "Add human review for externally facing actions"⟩

/-- A recommendations config for concrete evaluations. -/
def exRecommendations : RecommendationsConfig :=
  ⟨[("low", ["Document the workflow"])], [exImpactRule]⟩

/-- The weighted-average scenario's answers. -/
def exAnswers : List (String × String) :=
  [("autonomy", "autonomous"), ("autonomy_scope", "broad")]

/-- A config whose only dimension aggregates with `sum`. -/
def sumOnlyConfig : ScoringConfig :=
  ⟨[("autonomy", ⟨some "sum", []⟩)], exThresholds, []⟩

/-- The weighted-average formula of the claim, over the scoring (non
`_reasoning`) entries, with `weightOf` defaulting absent weights to 1:
Σ(score·weight)/Σ(weight), and 0 when the total weight is not positive. -/
def weightedAverageFormula (questions : List (String × QuestionConfig))
    (qs : List (String × ℚ)) : ℚ :=
  if 0 < ((qs.filter (fun p => !endsWithReasoning p.1)).map
      (fun p => weightOf questions p.1)).sum then
    ((qs.filter (fun p => !endsWithReasoning p.1)).map
      (fun p => p.2 * weightOf questions p.1)).sum /
    ((qs.filter (fun p => !endsWithReasoning p.1)).map
      (fun p => weightOf questions p.1)).sum
  else 0

/-! ### Helper lemmas -/

/-- Batteries' `Rat.floor` agrees with the `Int.floor` of Mathlib's
`FloorRing` instance on `ℚ`. -/
theorem ratFloor_eq_floor (q : ℚ) : q.floor = ⌊q⌋ :=
  (Rat.floor_def' q).trans Rat.floor_def.symm

/-- Python's `round` is the identity on integers. -/
theorem pyRound_intCast (n : ℤ) : pyRound (n : ℚ) = n := by
  unfold pyRound
  rw [ratFloor_eq_floor, Int.floor_intCast, sub_self]
  norm_num

/-- A key/value map built from a key list by a function: lookup of a
listed key returns the function's value. -/
theorem lookup_map_self {α : Type} (l : List String) (f : String → α)
    (d : String) (hd : d ∈ l) :
    (l.map (fun x => (x, f x))).lookup d = some (f d) := by
  induction l with
  | nil => cases hd
  | cons x xs ih =>
    by_cases hx : d = x
    · subst hx
      simp [List.lookup]
    · rcases List.mem_cons.1 hd with rfl | h
      · exact absurd rfl hx
      · have hbx : (d == x) = false := beq_eq_false_iff_ne.2 hx
        simpa [List.lookup, hbx] using ih h

/-- `firstMatchLevel` returns the level of a threshold entry once every
earlier entry fails the inclusive bound check and that entry passes it. -/
theorem firstMatchLevel_append (pre : List (String × Threshold)) (k : String)
    (t : Threshold) (post : List (String × Threshold)) (r : ℤ)
    (hpre : ∀ p ∈ pre, containsScore p.2 r = false)
    (ht : containsScore t r = true) :
    firstMatchLevel (pre ++ (k, t) :: post) r = some t.level := by
  induction pre with
  | nil => simp [firstMatchLevel, ht]
  | cons p ps ih =>
    obtain ⟨a, u⟩ := p
    have hu : containsScore u r = false := hpre (a, u) (List.mem_cons_self _ _)
    simpa [firstMatchLevel, hu] using
      ih (fun q hq => hpre q (List.mem_cons_of_mem _ hq))

/-- When no threshold entry's inclusive bounds hold, the scan finds
nothing. -/
theorem firstMatchLevel_none (ths : List (String × Threshold)) (r : ℤ)
    (h : ∀ p ∈ ths, containsScore p.2 r = false) :
    firstMatchLevel ths r = none := by
  induction ths with
  | nil => rfl
  | cons p ps ih =>
    obtain ⟨a, u⟩ := p
    have hu : containsScore u r = false := h (a, u) (List.mem_cons_self _ _)
    simpa [firstMatchLevel, hu] using
      ih (fun q hq => h q (List.mem_cons_of_mem _ hq))

/-- `foldl min` is bounded by its initial value. -/
theorem foldl_min_le_init (xs : List ℤ) (x : ℤ) : xs.foldl min x ≤ x := by
  induction xs generalizing x with
  | nil => exact le_refl x
  | cons a as ih => exact le_trans (ih (min x a)) (min_le_left x a)

/-- `foldl min` is bounded by every list element. -/
theorem foldl_min_le_mem (xs : List ℤ) (x y : ℤ) (hy : y ∈ xs) :
    xs.foldl min x ≤ y := by
  induction xs generalizing x with
  | nil => cases hy
  | cons a as ih =>
    rcases List.mem_cons.1 hy with rfl | h
    · exact le_trans (foldl_min_le_init as (min x y)) (min_le_right x y)
    · exact ih (min x a) h

/-- `minThreshold` bounds every configured range's min. -/
theorem minThreshold_le (ths : List (String × Threshold)) (m : ℤ)
    (hm : minThreshold ths = some m) :
    ∀ p ∈ ths, m ≤ p.2.min := by
  intro p hp
  match ths, hp with
  | q :: rest, hp =>
    have hm' : m = (rest.map (fun p => p.2.min)).foldl min q.2.min := by
      simpa [minThreshold] using hm.symm
    rcases List.mem_cons.1 hp with rfl | h
    · exact hm' ▸ foldl_min_le_init _ _
    · exact hm' ▸ foldl_min_le_mem _ _ _ (List.mem_map_of_mem _ h)

/-- Claim C10: classification is applied to the Python-rounded
(half-to-even) total, so `determine_risk_level(s)` agrees with
`determine_risk_level(round(s))` for every threshold table and score;
with ranges 4–7 and 8–11, a total of 7.49 classifies into 4–7 while 7.5
rounds (half to even) to 8 and classifies into 8–11. -/
theorem c10_round_half_even :
    (∀ (ths : List (String × Threshold)) (s : ℚ),
        determineRiskLevel ths s = determineRiskLevel ths ((pyRound s : ℤ) : ℚ))
    ∧ determineRiskLevel exThresholds (749/100) = some "low"
    ∧ determineRiskLevel exThresholds (15/2) = some "medium" := by
  refine ⟨fun ths s => ?_, by with_unfolding_all decide,
    by with_unfolding_all decide⟩
  unfold determineRiskLevel
  rw [pyRound_intCast]

/-- Claim C3: `determine_risk_level` scans the configured ranges in order
and returns the level of the first range whose inclusive bounds contain
the rounded score; in particular an integer score equal to a range's min
or max, not contained in any earlier range, is classified into that
range. -/
theorem c3_first_inclusive_match :
    (∀ (pre : List (String × Threshold)) (k : String) (t : Threshold)
        (post : List (String × Threshold)) (s : ℚ),
        (∀ p ∈ pre, containsScore p.2 (pyRound s) = false) →
        containsScore t (pyRound s) = true →
        determineRiskLevel (pre ++ (k, t) :: post) s = some t.level)
    ∧ (∀ (pre : List (String × Threshold)) (k : String) (t : Threshold)
        (post : List (String × Threshold)) (s : ℤ),
        (∀ p ∈ pre, containsScore p.2 s = false) →
        t.min ≤ t.max → (s = t.min ∨ s = t.max) →
        determineRiskLevel (pre ++ (k, t) :: post) (s : ℚ) = some t.level) := by
  have main : ∀ (pre : List (String × Threshold)) (k : String) (t : Threshold)
      (post : List (String × Threshold)) (s : ℚ),
      (∀ p ∈ pre, containsScore p.2 (pyRound s) = false) →
      containsScore t (pyRound s) = true →
      determineRiskLevel (pre ++ (k, t) :: post) s = some t.level := by
    intro pre k t post s hpre ht
    unfold determineRiskLevel
    rw [firstMatchLevel_append pre k t post (pyRound s) hpre ht]
  refine ⟨main, fun pre k t post s hpre hmm hs => ?_⟩
  have hround : pyRound (s : ℚ) = s := pyRound_intCast s
  refine main pre k t post (s : ℚ) (fun p hp => by rw [hround]; exact hpre p hp) ?_
  rw [hround]
  rcases hs with rfl | rfl <;> simp [containsScore, hmm]

/-- Witness for C3 at the spec's thresholds: 7 (the max of low=4–7) is
"low", and 8 (the min of medium=8–11, not contained in the earlier low
range) is "medium". -/
theorem c3_witness :
    determineRiskLevel exThresholds ((7 : ℤ) : ℚ) = some "low"
    ∧ determineRiskLevel exThresholds ((8 : ℤ) : ℚ) = some "medium" :=
  ⟨c3_first_inclusive_match.2 [] "low" ⟨4, 7, "low"⟩
      [("medium", ⟨8, 11, "medium"⟩), ("high", ⟨12, 14, "high"⟩),
       ("critical", ⟨15, 16, "critical"⟩)] 7
      (by intro p hp; cases hp) (by decide) (Or.inr rfl),
   c3_first_inclusive_match.2 [("low", ⟨4, 7, "low"⟩)] "medium"
      ⟨8, 11, "medium"⟩
      [("high", ⟨12, 14, "high"⟩), ("critical", ⟨15, 16, "critical"⟩)] 8
      (by intro p hp
          rcases List.mem_singleton.1 hp with rfl
          decide)
      (by decide) (Or.inl rfl)⟩

/-- Counterexample to C4: with a single configured range 4–7 whose level
is named "minimal", the score 3 (below the lowest min) classifies as the
literal "low" — not the lowest configured level, which is "minimal";
indeed no configured level is named "low". -/
theorem c4_clamp_counterexample :
    determineRiskLevel [("lowest", ⟨4, 7, "minimal"⟩)] 3 = some "low"
    ∧ ∀ p ∈ [("lowest", (⟨4, 7, "minimal"⟩ : Threshold))], p.2.level ≠ "low" := by
  constructor
  · with_unfolding_all decide
  · decide

/-- Claim C4 (amended): for every score whose Python-rounded value is
strictly below the smallest configured min, `determine_risk_level`
returns the hardcoded string "low" — the literal name, regardless of how
the configured levels are named. With the spec's thresholds (whose lowest
level is named "low") score 3 therefore yields "low". -/
theorem c4_clamp_amended (ths : List (String × Threshold)) (s : ℚ) (m : ℤ)
    (hm : minThreshold ths = some m) (hs : pyRound s < m) :
    determineRiskLevel ths s = some "low" := by
  have hnone : firstMatchLevel ths (pyRound s) = none := by
    refine firstMatchLevel_none ths (pyRound s) (fun p hp => ?_)
    have hle : m ≤ p.2.min := minThreshold_le ths m hm p hp
    have : ¬ (p.2.min ≤ pyRound s) := by omega
    simp [containsScore, this]
  unfold determineRiskLevel
  rw [hnone, hm]
  simp [hs]

/-- Witness for C4 (amended) at the spec's thresholds: score 3 rounds to
3 < 4 and clamps to "low". -/
theorem c4_clamp_witness : determineRiskLevel exThresholds 3 = some "low" :=
  c4_clamp_amended exThresholds 3 4 (by with_unfolding_all decide)
    (by with_unfolding_all decide)

/-- Claim C5: for a dimension configured with the `weighted_average`
strategy, the dimension score the pipeline records equals
Σ(scoreᵢ·weightᵢ)/Σ(weightᵢ) over its scoring entries (weights default
to 1), and 0 — not an error — when the total weight is 0. -/
theorem c5_weighted_average (cfg : ScoringConfig)
    (data : List (String × String)) (dim : String)
    (dimCfg : DimensionConfig) (hdim : dim ∈ dimensionNames)
    (hcfg : cfg.dimensions.lookup dim = some dimCfg)
    (hagg : dimCfg.aggregation = some "weighted_average") :
    (dimensionScoreEntries cfg data).lookup dim =
      some (weightedAverageFormula dimCfg.questions
        (scoresForDimension cfg data dim)) := by
  have hmem : dim ∈ configuredDimensions cfg := by
    simp [configuredDimensions, List.mem_filter, hdim, hcfg]
  rw [dimensionScoreEntries, lookup_map_self _ _ dim hmem]
  unfold dimensionScoreValue
  by_cases hqs : (scoresForDimension cfg data dim).isEmpty
  · rw [if_pos hqs]
    rw [List.isEmpty_iff] at hqs
    simp [weightedAverageFormula, hqs]
  · rw [if_neg hqs]
    unfold aggregateDimensionScores weightedAverageFormula questionsOf
    rw [hcfg, Option.getD_some, hagg, Option.getD_some, if_neg hqs]
    rfl

/-- Witness for C5 at the spec's scenario: answers
`autonomy=autonomous` (score 4, weight 1) and `autonomy_scope=broad`
(score 4, weight 0.5) give (4·1 + 4·0.5)/1.5 = 4. -/
theorem c5_weighted_average_witness :
    (dimensionScoreEntries exScoringConfig exAnswers).lookup "autonomy"
      = some 4 :=
  (c5_weighted_average exScoringConfig exAnswers "autonomy"
      ⟨some "weighted_average", exAutonomyQuestions⟩ (by decide)
      (by with_unfolding_all decide) rfl).trans
    (by with_unfolding_all decide)

/-- Claim C7: a category with zero scoring entries scores 0: if no
submitted key belongs to the dimension, its recorded score is 0, and
`aggregate_dimension_scores` on an empty score map returns 0 under every
configured strategy (sum, average, weighted_average, max, min, or any
other) without error. -/
theorem c7_zero_scoring_zero (cfg : ScoringConfig)
    (data : List (String × String)) (dim : String)
    (hdim : dim ∈ dimensionNames)
    (hcfg : (cfg.dimensions.lookup dim).isSome = true)
    (hnone : ∀ kv ∈ data, isQuestionInDimension cfg kv.1 dim = false) :
    (dimensionScoreEntries cfg data).lookup dim = some 0
    ∧ ∀ (cfg' : ScoringConfig) (dim' : String),
        aggregateDimensionScores cfg' dim' [] = 0 := by
  constructor
  · have hmem : dim ∈ configuredDimensions cfg := by
      simp [configuredDimensions, List.mem_filter, hdim, hcfg]
    rw [dimensionScoreEntries, lookup_map_self _ _ dim hmem]
    have hempty : scoresForDimension cfg data dim = [] := by
      unfold scoresForDimension
      have : data.filter (fun kv => isQuestionInDimension cfg kv.1 dim) = [] := by
        induction data with
        | nil => rfl
        | cons kv rest ih =>
          have h1 := hnone kv (List.mem_cons_self _ _)
          simpa [List.filter, h1] using
            ih (fun q hq => hnone q (List.mem_cons_of_mem _ hq))
      rw [this]
      rfl
    simp [dimensionScoreValue, hempty]
  · intro cfg' dim'
    simp [aggregateDimensionScores]

/-- Witness for C7: answers holding only an annotation entry for the
`autonomy` dimension score it 0, and the empty score map aggregates to 0
under the example (weighted_average) config. -/
theorem c7_zero_scoring_witness :
    (dimensionScoreEntries exScoringConfig
        [("autonomy_reasoning", "because")]).lookup "autonomy" = some 0
    ∧ aggregateDimensionScores exScoringConfig "autonomy" [] = 0 := by
  have h := c7_zero_scoring_zero exScoringConfig
    [("autonomy_reasoning", "because")] "autonomy" (by decide)
    (by with_unfolding_all decide)
    (by intro kv hkv
        rcases List.mem_singleton.1 hkv with rfl
        with_unfolding_all decide)
  exact ⟨h.1, h.2 exScoringConfig "autonomy"⟩

/-- Claim C9: the total risk score in the result of
`calculate_flexible_risk_score` equals the sum of the values of the
per-dimension score map in the same result. -/
theorem c9_total_eq_sum (cfg : ScoringConfig)
    (data : List (String × String)) :
    (calculateFlexibleRiskScore cfg data).total
      = ((calculateFlexibleRiskScore cfg data).dimensionScores.map
          Prod.snd).sum := rfl

/-- Claim C8 (code bug): the claimed deterministic full evaluation never
produces a result — `assess_risk` raises `TypeError` on every call,
including the module's own `__main__` demo input, because the
`RiskAssessment(...)` call omits the dataclass's required `responses`
field; the result components the claim compares are never returned. -/
theorem c8_assess_risk_raises :
    (∀ (cfg : ScoringConfig) (rc : RecommendationsConfig)
        (data : List (String × String)), assessRisk cfg rc data = none)
    ∧ assessRisk exScoringConfig exRecommendations exAnswers = none := by
  have h : ∀ (cfg : ScoringConfig) (rc : RecommendationsConfig)
      (data : List (String × String)), assessRisk cfg rc data = none := by
    intro cfg rc data
    unfold assessRisk
    cases (calculateFlexibleRiskScore cfg data).riskLevel <;> rfl
  exact ⟨h, h exScoringConfig exRecommendations exAnswers⟩

/-- Counterexample to C2: at the aggregation boundary the `sum` strategy
does NOT exclude a reasoning/annotation entry — a score map holding only
the entry `autonomy_reasoning ↦ 5` sums to 5, not to the 0 that
exclusion would give. (The entries carry no Scoring/Annotation tag at
all; the code's only exclusion mechanism is the `_reasoning` key-name
suffix, applied before aggregation and inside `average`,
`weighted_average` and `max` only.) -/
theorem c2_sum_includes_reasoning_counterexample :
    aggregateDimensionScores sumOnlyConfig "autonomy"
      [("autonomy_reasoning", 5)] = 5
    ∧ (5 : ℚ) ≠ 0 := by
  constructor
  · with_unfolding_all decide
  · with_unfolding_all decide

/-- Reasoning keys never pass `is_question_in_dimension`. -/
theorem isQuestionInDimension_reasoning (cfg : ScoringConfig)
    (k d : String) (h : endsWithReasoning k = true) :
    isQuestionInDimension cfg k d = false := by
  simp [isQuestionInDimension, h]

/-- Claim C2 (amended): reasoning entries — recognised by the
`_reasoning` key-name suffix, not by a tag — are excluded from scoring
before aggregation by `is_question_in_dimension`, so the whole
evaluation result is unchanged if the reasoning-keyed answers are
dropped; and for the `average`, `weighted_average` and `max` strategies
(though not `sum` or `min`) `aggregate_dimension_scores` itself also
ignores reasoning-keyed score entries. -/
theorem c2_reasoning_filtered_amended (cfg : ScoringConfig)
    (data : List (String × String)) (dim : String) (qs : List (String × ℚ))
    (hagg : ((cfg.dimensions.lookup dim).getD
          emptyDimensionConfig).aggregation.getD "max" = "average"
      ∨ ((cfg.dimensions.lookup dim).getD
          emptyDimensionConfig).aggregation.getD "max" = "weighted_average"
      ∨ ((cfg.dimensions.lookup dim).getD
          emptyDimensionConfig).aggregation.getD "max" = "max") :
    calculateFlexibleRiskScore cfg
        (data.filter (fun kv => !endsWithReasoning kv.1))
      = calculateFlexibleRiskScore cfg data
    ∧ aggregateDimensionScores cfg dim
        (qs.filter (fun p => !endsWithReasoning p.1))
      = aggregateDimensionScores cfg dim qs := by
  have hisq : ∀ (d : String) (kv : String × String),
      (isQuestionInDimension cfg kv.1 d && !endsWithReasoning kv.1)
        = isQuestionInDimension cfg kv.1 d := by
    intro d kv
    cases her : endsWithReasoning kv.1 with
    | false => simp
    | true => simp [isQuestionInDimension_reasoning cfg kv.1 d her]
  have hscores : ∀ d, scoresForDimension cfg
      (data.filter (fun kv => !endsWithReasoning kv.1)) d
      = scoresForDimension cfg data d := by
    intro d
    unfold scoresForDimension
    rw [List.filter_filter _ data, List.filter_congr (fun kv _ => hisq d kv)]
  constructor
  · have hsf : scoresForDimension cfg
        (data.filter (fun kv => !endsWithReasoning kv.1))
        = scoresForDimension cfg data := funext hscores
    have hval : dimensionScoreValue cfg
        (data.filter (fun kv => !endsWithReasoning kv.1))
        = dimensionScoreValue cfg data := by
      funext d
      unfold dimensionScoreValue
      rw [hscores d]
    unfold calculateFlexibleRiskScore dimensionScoreEntries
      questionScoreEntries
    rw [hval, hsf]
  · have fidem : (qs.filter (fun p => !endsWithReasoning p.1)).filter
        (fun p => !endsWithReasoning p.1)
        = qs.filter (fun p => !endsWithReasoning p.1) := by
      rw [List.filter_filter _ qs]
      exact List.filter_congr (fun a _ => Bool.and_self _)
    by_cases hq : qs = []
    · subst hq; rfl
    · have hqe : qs.isEmpty = false := by
        cases qs with
        | nil => exact absurd rfl hq
        | cons a l => rfl
      by_cases hq' : qs.filter (fun p => !endsWithReasoning p.1) = []
      · -- every entry is a reasoning entry: both sides are 0
        rw [hq']
        unfold aggregateDimensionScores
        rw [hqe]
        rcases hagg with h | h | h <;> rw [h] <;> simp [hq']
      · have hqe' : (qs.filter (fun p => !endsWithReasoning p.1)).isEmpty
            = false := by
          cases hfq : qs.filter (fun p => !endsWithReasoning p.1) with
          | nil => exact absurd hfq hq'
          | cons a l => rfl
        unfold aggregateDimensionScores
        rw [hqe, hqe']
        rcases hagg with h | h | h <;> rw [h] <;> rw [fidem] <;> simp

/-- Witness for C2 (amended) at the example config: dropping a reasoning
answer leaves the full evaluation unchanged, and `weighted_average`
aggregation ignores a reasoning score entry. -/
theorem c2_reasoning_filtered_witness :
    calculateFlexibleRiskScore exScoringConfig
        ([("autonomy", "autonomous"), ("autonomy_reasoning", "because")].filter
          (fun kv => !endsWithReasoning kv.1))
      = calculateFlexibleRiskScore exScoringConfig
          [("autonomy", "autonomous"), ("autonomy_reasoning", "because")]
    ∧ aggregateDimensionScores exScoringConfig "autonomy"
        ([("autonomy", 4), ("autonomy_reasoning", 7)].filter
          (fun p => !endsWithReasoning p.1))
      = aggregateDimensionScores exScoringConfig "autonomy"
          [("autonomy", 4), ("autonomy_reasoning", 7)] :=
  c2_reasoning_filtered_amended exScoringConfig
    [("autonomy", "autonomous"), ("autonomy_reasoning", "because")]
    "autonomy" [("autonomy", 4), ("autonomy_reasoning", 7)]
    (Or.inr (Or.inl (by with_unfolding_all decide)))

/-- Counterexample to C6: a rule with an empty condition matches any
answer set, but when its recommendation is the empty string
(`.get('recommendation', '')`) the code appends nothing, while the claim
("the recommendations of matched rules are appended") would produce
`[""]`. -/
theorem c6_empty_recommendation_counterexample :
    ruleMatches [] (⟨[], ""⟩ : CondRule) = true
    ∧ getConditionalRecommendations [⟨[], ""⟩] [] = []
    ∧ (([(⟨[], ""⟩ : CondRule)].filter (fun r => ruleMatches [] r)).map
        (fun r => r.recommendation)) = [""] := by
  refine ⟨rfl, rfl, rfl⟩

/-- Claim C6 (amended): a conditional rule matches iff every
(field, allowed-set) pair of its condition has the submitted answer for
that field in the allowed set; an absent field makes the rule
non-matching; when every rule's recommendation is nonempty the output is
exactly the matched rules' recommendations in declaration order
(duplicates preserved) — a matched rule with an empty recommendation
contributes nothing; the example rule
`{impact: [external], oversight: [minimal]}` fires with
oversight=minimal but not with oversight=checkpoint. -/
theorem c6_conditional_amended (rules : List CondRule)
    (data : List (String × String))
    (hne : ∀ r ∈ rules, r.recommendation ≠ "") :
    getConditionalRecommendations rules data
      = (rules.filter (fun r => ruleMatches data r)).map
          (fun r => r.recommendation)
    ∧ (∀ r : CondRule, ruleMatches data r = true ↔
        ∀ fc ∈ r.condition, ∃ v, data.lookup fc.1 = some v
          ∧ fc.2.contains v = true)
    ∧ (∀ (r : CondRule) (fc : String × List String), fc ∈ r.condition →
        data.lookup fc.1 = none → ruleMatches data r = false)
    ∧ ruleMatches [("impact", "external"), ("oversight", "minimal")]
        exImpactRule = true
    ∧ ruleMatches [("impact", "external"), ("oversight", "checkpoint")]
        exImpactRule = false
    ∧ getConditionalRecommendations
        [⟨[], "Review"⟩, ⟨[], "Review"⟩] [] = ["Review", "Review"] := by
  have hiff : ∀ r : CondRule, ruleMatches data r = true ↔
      ∀ fc ∈ r.condition, ∃ v, data.lookup fc.1 = some v
        ∧ fc.2.contains v = true := by
    intro r
    unfold ruleMatches
    rw [List.all_eq_true]
    constructor
    · intro h fc hfc
      have hfc' := h fc hfc
      cases hl : data.lookup fc.1 with
      | none => rw [hl] at hfc'; cases hfc'
      | some v => rw [hl] at hfc'; exact ⟨v, rfl, hfc'⟩
    · intro h fc hfc
      obtain ⟨v, hv, hcont⟩ := h fc hfc
      show (match data.lookup fc.1 with
            | some v => fc.2.contains v
            | none => false) = true
      rw [hv]
      exact hcont
  refine ⟨?_, hiff, ?_, rfl, rfl, rfl⟩
  · have hfilter : ∀ r ∈ rules,
        (ruleMatches data r && !(r.recommendation == ""))
          = ruleMatches data r := by
      intro r hr
      have hb : (r.recommendation == "") = false :=
        beq_eq_false_iff_ne.2 (hne r hr)
      rw [hb]
      simp
    unfold getConditionalRecommendations
    rw [List.filter_congr hfilter]
  · intro r fc hfc hlook
    cases hb : ruleMatches data r with
    | false => rfl
    | true =>
      obtain ⟨v, hv, _⟩ := (hiff r).1 hb fc hfc
      rw [hlook] at hv
      cases hv

/-- Witness for C6 (amended): the example rule fires alone for
impact=external, oversight=minimal, and the output is its
recommendation. -/
theorem c6_conditional_witness :
    getConditionalRecommendations [exImpactRule]
        [("impact", "external"), ("oversight", "minimal")]
      = ["Add human review for externally facing actions"] :=
  ((c6_conditional_amended [exImpactRule]
      [("impact", "external"), ("oversight", "minimal")]
      (by decide)).1).trans (by decide)

/-- Counterexample to C1: a reload that finds the scoring file
unparsable (mtime changed from 5 to 6) replaces the previously active
nonempty config with the EMPTY config — the previous configuration does
not remain active, no error is surfaced, and subsequent evaluations see
the empty config. -/
theorem c1_failed_reload_counterexample :
    (loadSlot emptyScoringConfig false
        ⟨exScoringConfig, some 5⟩ ⟨FileContent.unreadable, 6⟩).cached
      = emptyScoringConfig
    ∧ emptyScoringConfig ≠ exScoringConfig := by
  constructor
  · with_unfolding_all decide
  · with_unfolding_all decide

/-- Claim C1 (amended): when `_load_all` processes a config file that is
changed (or the load is forced) and the file cannot be read or parsed,
it silently replaces that file's cached configuration with the empty
configuration and records the new mtime; it raises no error, so
subsequent evaluations serve the empty — not the previous —
configuration. -/
theorem c1_failed_reload_amended (slot : ConfigSlot ScoringConfig)
    (f : DiskFile ScoringConfig) (force : Bool)
    (hfail : f.content = FileContent.unreadable)
    (hchg : (force || hasChanged slot f) = true) :
    loadSlot emptyScoringConfig force slot f
      = ⟨emptyScoringConfig, some f.mtime⟩ := by
  obtain ⟨c, m⟩ := f
  have hc : c = FileContent.unreadable := hfail
  subst hc
  unfold loadSlot
  rw [hchg]
  simp [safeLoadYaml, fileMtime]

/-- Witness for C1 (amended): the concrete failed reload of the
counterexample yields exactly the empty config with the new mtime. -/
theorem c1_failed_reload_witness :
    loadSlot emptyScoringConfig false ⟨exScoringConfig, some 5⟩
        ⟨FileContent.unreadable, 6⟩
      = ⟨emptyScoringConfig, some 6⟩ :=
  c1_failed_reload_amended ⟨exScoringConfig, some 5⟩
    ⟨FileContent.unreadable, 6⟩ false rfl (by with_unfolding_all decide)

end AIRisk
